import Mathlib

/-!
Shallow embedding of the riotbot tutorial service
(services/riotbot/riotbot.go of go-neb).

The service drives a per-user onboarding flow: a global list of
Tutorial sessions, each advanced by a chain of queueNextStep /
nextStep calls that block on a timer channel between steps.

Modelling conventions, justified against the Go source:
- Durations (time.Duration) are Int milliseconds.
- The gomatrix client is represented by the trace of send events the
  chain emits (Event.sent); transport errors are only logged in the
  source and change nothing observable here, so they are not modelled.
- The *time.Timer field holds, in this model, the delay of the last
  timer stored into the struct (none = nil pointer, as after
  NewTutorial).  Stopping a timer has no observable cross-effect in
  the model because no two Tutorial values ever share a timer: every
  call of nextStep copies its receiver (value receiver in the source),
  and initTutorialFlow appends a copy of its local variable to the
  registry before handing another copy to the goroutine.
- The blocking receive on the timer channel inside queueNextStep is
  the event Event.waited d, recorded in the trace of whichever call
  performs it (synchronously for restart, in a spawned runner for a
  new session).
- text/template is external, so it enters as a TemplateEngine
  parameter: parse returns none on a malformed template body, exec
  returns none on a runtime substitution error.  renderBody returning
  none models the run-time panic of calling Execute on the nil
  *Template that Parse returns together with its error.
-/

namespace Riotbot

/-- One step of the tutorial flow (TutorialStep in the source):
yaml fields type, body, src, delay. -/
structure TutorialStep where
  type : String
  body : String
  src : String
  delay : Int
deriving DecidableEq

/-- The tutorial flow loaded from tutorial.yml (TutorialFlow in the
source); treated as an already-validated in-memory value because
loading happens once in init() and failures there are fatal. -/
structure TutorialFlow where
  resourcesBaseURL : String
  templates : List (String × String)
  initialDelay : Int
  steps : List TutorialStep
deriving DecidableEq

/-- One tutorial session (Tutorial in the source).  The cli field of
the source is not carried: sends appear in the event trace instead. -/
structure Tutorial where
  roomID : String
  userID : String
  currentStep : Int
  timer : Option Int
  templates : List (String × String)
deriving DecidableEq

/-- NewTutorial from the source: currentStep starts at the sentinel
-1 and no timer exists yet. -/
def NewTutorial (roomID userID : String) (templates : List (String × String)) : Tutorial :=
  { roomID := roomID
    userID := userID
    currentStep := -1
    timer := none
    templates := templates }

/-- The external text/template engine, abstracted: parse fails on a
malformed template body; exec fails on a runtime substitution error. -/
structure TemplateEngine (Tmpl : Type) where
  parse : String → Option Tmpl
  exec : Tmpl → List (String × String) → Option String

/-- A message handed to cli.SendMessageEvent: either a
gomatrix.ImageMessage or a gomatrix.TextMessage. -/
inductive Message
  | imageMessage (msgType body url : String)
  | textMessage (msgType body : String)
deriving DecidableEq

/-- Observable actions of a chain of queueNextStep / nextStep calls:
a blocking wait on a timer channel, or a message send. -/
inductive Event
  | waited (ms : Int)
  | sent (roomID : String) (msg : Message)
deriving DecidableEq

/-- How a chain of nextStep calls finishes: normally, carrying the
final value of the (copied) receiver, or by a run-time panic. -/
inductive ChainEnd
  | done (t : Tutorial)
  | panicked
deriving DecidableEq

/-- renderBody from the source.  Parse failure is logged there but
NOT returned from: execution then reaches tmpl.Execute with tmpl the
nil *Template that Parse returned alongside its error, which
dereferences nil and panics — modelled as none.  A runtime
substitution error (exec returns none) is logged and renderBody
returns the empty string. -/
def renderBody {Tmpl : Type} (engine : TemplateEngine Tmpl) (t : Tutorial)
    (ts : TutorialStep) : Option String :=
  if ts.body ≠ "" then
    match engine.parse ts.body with
    | some tmpl =>
      match engine.exec tmpl t.templates with
      | some s => some s
      | none => some ""
    | none => none
  else
    some ""

/-- The switch statement on step.Type inside nextStep, factored as
the message it constructs (none when renderBody panicked).  The case
image builds a gomatrix.ImageMessage whose URL is the plain string
concatenation base + step.Src; the case notice builds a TextMessage
with MsgType m.notice; the default case builds a TextMessage with
MsgType m.text. -/
def stepMessage {Tmpl : Type} (engine : TemplateEngine Tmpl) (flow : TutorialFlow)
    (t : Tutorial) (step : TutorialStep) : Option Message :=
  if step.type = "image" then
    (renderBody engine t step).map
      (fun body => Message.imageMessage ("m.image") body (flow.resourcesBaseURL ++ step.src))
  else if step.type = "notice" then
    (renderBody engine t step).map (fun body => Message.textMessage ("m.notice") body)
  else
    (renderBody engine t step).map (fun body => Message.textMessage ("m.text") body)

/-- The single state mutation of nextStep: t.currentStep++ (performed
on the copied receiver before the bounds check). -/
def nextStepIncrement (t : Tutorial) : Tutorial :=
  { t with currentStep := t.currentStep + 1 }

/-- The state mutation of restart: t.currentStep = -1.  (Stopping the
stored timer precedes it in the source; Stop leaves the field
unchanged and, since no other Tutorial value shares that timer, has
no further observable effect.) -/
def restartState (t : Tutorial) : Tutorial :=
  { t with currentStep := -1 }

/-- The field assignment t.timer = time.NewTimer(time.Millisecond *
delay) inside queueNextStep: the struct now stores a timer with the
given delay. -/
def setTimer (t : Tutorial) (d : Int) : Tutorial :=
  { t with timer := some d }

/-- The recursive chain nextStep → queueNextStep → nextStep → …,
driven here by the suffix of the step list that is still ahead of the
receiver: rest = flow.steps dropped past index currentStep, so the
source's bounds check currentStep < len(steps) is rest ≠ [].
Each round is nextStep: increment currentStep; if a step remains,
render and send its message, then (the inlined tail call
t.queueNextStep(step.Delay)) replace the stored timer and block on it
when step.Delay > 0, and recurse; with no step remaining the tutorial
instance ends and nothing further is queued.  A renderBody panic
aborts the chain before any send of that step. -/
def nextStepFrom {Tmpl : Type} (engine : TemplateEngine Tmpl) (flow : TutorialFlow) :
    Tutorial → List TutorialStep → List Event × ChainEnd
  | t, [] => ([], ChainEnd.done (nextStepIncrement t))
  | t, step :: rest =>
    let t1 := nextStepIncrement t
    match stepMessage engine flow t1 step with
    | none => ([], ChainEnd.panicked)
    | some msg =>
      let t2 := if step.delay > 0 then setTimer t1 step.delay else t1
      let r := nextStepFrom engine flow t2 rest
      (Event.sent t1.roomID msg ::
        (if step.delay > 0 then Event.waited step.delay :: r.1 else r.1), r.2)

/-- nextStep from the source, as the chain it unleashes: the steps
still ahead of the receiver are flow.steps past index currentStep. -/
def nextStep {Tmpl : Type} (engine : TemplateEngine Tmpl) (flow : TutorialFlow)
    (t : Tutorial) : List Event × ChainEnd :=
  nextStepFrom engine flow t (flow.steps.drop (t.currentStep + 1).toNat)

/-- queueNextStep from the source: stop the stored timer (no
observable effect, see module comment); when delay > 0 store a fresh
timer and block on its channel — the Event.waited entry — then call
nextStep; otherwise call nextStep at once. -/
def queueNextStep {Tmpl : Type} (engine : TemplateEngine Tmpl) (flow : TutorialFlow)
    (delay : Int) (t : Tutorial) : List Event × ChainEnd :=
  if delay > 0 then
    let r := nextStep engine flow (setTimer t delay)
    (Event.waited delay :: r.1, r.2)
  else
    nextStep engine flow t

/-- restart from the source: stop the stored timer if any, reset
currentStep to -1, and call queueNextStep(initialDelay) — which, in
this implementation, blocks the caller and runs the whole chain. -/
def restart {Tmpl : Type} (engine : TemplateEngine Tmpl) (flow : TutorialFlow)
    (t : Tutorial) : List Event × ChainEnd :=
  queueNextStep engine flow flow.initialDelay (restartState t)

/-- Process state: the global registry (the tutorials slice) together
with the chains that have been spawned with the go keyword and not
yet run; each pending runner is the (delay, receiver copy) argument
pair of its queueNextStep call. -/
structure World where
  tutorials : List Tutorial
  runners : List (Int × Tutorial)
deriving DecidableEq

/-- What one call of initTutorialFlow returns and does: the new
process state, the response string, the events the call performed
synchronously before returning, and how its synchronous chain ended
(none when the call ran no chain itself). -/
structure StartResult where
  world : World
  response : String
  syncEvents : List Event
  syncEnd : Option ChainEnd
deriving DecidableEq

/-- initTutorialFlow from the source.  The loop over tutorials is a
linear scan returning on the first entry whose userID matches; the
loop body copies the slice element into a local variable, so restart
runs on that copy and the registry is left as it was.  With no match,
a new Tutorial is appended and its queueNextStep(initialDelay) is
spawned asynchronously with the go keyword. -/
def initTutorialFlow {Tmpl : Type} (engine : TemplateEngine Tmpl) (flow : TutorialFlow)
    (w : World) (roomID userID : String) : StartResult :=
  match w.tutorials.find? (fun tut => tut.userID == userID) with
  | some tutorial =>
    let r := restart engine flow tutorial
    { world := w
      response := "Restarting Riot tutorial"
      syncEvents := r.1
      syncEnd := some r.2 }
  | none =>
    let tutorial := NewTutorial roomID userID flow.templates
    { world :=
        { tutorials := w.tutorials ++ [tutorial]
          runners := w.runners ++ [(flow.initialDelay, tutorial)] }
      response := "Starting Riot tutorial"
      syncEvents := []
      syncEnd := none }

/-- Scheduling a pending runner: the goroutine executes its
queueNextStep call to completion.  It owns only its private copy of
the Tutorial (value receiver) and never names the global tutorials
slice, so the registry is carried through unchanged. -/
def fireRunner {Tmpl : Type} (engine : TemplateEngine Tmpl) (flow : TutorialFlow)
    (w : World) (i : Nat) : Option (World × (List Event × ChainEnd)) :=
  match w.runners[i]? with
  | some r =>
    some ({ tutorials := w.tutorials, runners := w.runners.eraseIdx i },
      queueNextStep engine flow r.1 r.2)
  | none => none

/-- The messages sent along a trace, in order. -/
def sends : List Event → List Message
  | [] => []
  | Event.sent _ m :: es => m :: sends es
  | Event.waited _ :: es => sends es

/-- A template engine whose templates are literal text: every body
parses and renders to itself. -/
def exEngine : TemplateEngine String :=
  { parse := fun s => some s
    exec := fun tmpl _ => some tmpl }

/-- A template engine on which every non-empty body is malformed:
parse always reports an error, as text/template does on input such as
an unclosed action. -/
def failParse : TemplateEngine String :=
  { parse := fun _ => none
    exec := fun tmpl _ => some tmpl }

/-- First concrete step: a text step with a 7 ms post-send delay. -/
def exStepOne : TutorialStep :=
  { type := "text", body := "one", src := "", delay := 7 }

/-- Second concrete step: a notice step with no post-send delay. -/
def exStepTwo : TutorialStep :=
  { type := "notice", body := "two", src := "", delay := 0 }

/-- A concrete two-step flow with a 5 ms initial delay. -/
def exFlow : TutorialFlow :=
  { resourcesBaseURL := "http://x/"
    templates := []
    initialDelay := 5
    steps := [exStepOne, exStepTwo] }

/-- The start command dispatched on an empty registry: creates a
session and spawns its runner. -/
def exStart1 : StartResult :=
  initTutorialFlow exEngine exFlow ⟨[], []⟩ ("!room") ("@user")

/-- The start command dispatched again for the same user while the
first session's runner is still pending: takes the restart path. -/
def exStart2 : StartResult :=
  initTutorialFlow exEngine exFlow exStart1.world ("!room") ("@user")

/-- A step whose body is an unclosed template action, which the
template parser rejects. -/
def malformedStep : TutorialStep :=
  { type := "text", body := "\x7b\x7bname", src := "", delay := 0 }

/-- A concrete image step with a relative resource path. -/
def exImageStep : TutorialStep :=
  { type := "image", body := "cap", src := "a.png", delay := 0 }

/-- A concrete step of an unrecognized kind. -/
def exWeirdStep : TutorialStep :=
  { type := "emoji", body := "three", src := "", delay := 0 }

/-- renderBody reads its receiver only through the templates field. -/
theorem renderBody_templates_eq {Tmpl : Type} (engine : TemplateEngine Tmpl)
    (t1 t2 : Tutorial) (h : t1.templates = t2.templates) (ts : TutorialStep) :
    renderBody engine t1 ts = renderBody engine t2 ts := by
  unfold renderBody
  rw [h]

/-- stepMessage reads its receiver only through the templates field. -/
theorem stepMessage_templates_eq {Tmpl : Type} (engine : TemplateEngine Tmpl)
    (flow : TutorialFlow) (t1 t2 : Tutorial) (h : t1.templates = t2.templates)
    (s : TutorialStep) :
    stepMessage engine flow t1 s = stepMessage engine flow t2 s := by
  unfold stepMessage
  rw [renderBody_templates_eq engine t1 t2 h]

/-- Assigning a timer does not change what stepMessage produces. -/
theorem stepMessage_setTimer {Tmpl : Type} (engine : TemplateEngine Tmpl)
    (flow : TutorialFlow) (t : Tutorial) (d : Int) (s : TutorialStep) :
    stepMessage engine flow (setTimer t d) s = stepMessage engine flow t s :=
  stepMessage_templates_eq engine flow (setTimer t d) t rfl s

/-- Incrementing currentStep does not change what stepMessage produces. -/
theorem stepMessage_nextStepIncrement {Tmpl : Type} (engine : TemplateEngine Tmpl)
    (flow : TutorialFlow) (t : Tutorial) (s : TutorialStep) :
    stepMessage engine flow (nextStepIncrement t) s = stepMessage engine flow t s :=
  stepMessage_templates_eq engine flow (nextStepIncrement t) t rfl s

/-- filterMap keeps the length of a list on which it never drops. -/
theorem length_filterMap_of_ne_none {α β : Type} (f : α → Option β) :
    ∀ l : List α, (∀ x ∈ l, f x ≠ none) → (l.filterMap f).length = l.length := by
  intro l
  induction l with
  | nil => intro _; rfl
  | cons a l ih =>
    intro h
    obtain ⟨b, hb⟩ := Option.ne_none_iff_exists'.mp (h a (List.mem_cons_self a l))
    simp [List.filterMap_cons, hb, ih (fun x hx => h x (List.mem_cons_of_mem a hx))]

/-- A chain whose every remaining step renders without panicking runs
to the end of the step list: it emits exactly the message of each
remaining step, in order, advances currentStep once per step plus the
final out-of-bounds increment that detects completion, and finishes
with ChainEnd.done — after which nothing further is queued. -/
theorem nextStepFrom_ok {Tmpl : Type} (engine : TemplateEngine Tmpl) (flow : TutorialFlow) :
    ∀ (rest : List TutorialStep) (t : Tutorial),
      (∀ s ∈ rest, stepMessage engine flow t s ≠ none) →
      ∃ evs tm,
        nextStepFrom engine flow t rest
          = (evs, ChainEnd.done
              ⟨t.roomID, t.userID, t.currentStep + 1 + rest.length, tm, t.templates⟩) ∧
        sends evs = rest.filterMap (stepMessage engine flow t) := by
  intro rest
  induction rest with
  | nil =>
    intro t _
    refine ⟨[], t.timer, ?_, rfl⟩
    simp [nextStepFrom, nextStepIncrement]
  | cons s rest ih =>
    intro t h
    have hs := h s (List.mem_cons_self s rest)
    obtain ⟨msg, hmsg⟩ := Option.ne_none_iff_exists'.mp hs
    have hmsg1 : stepMessage engine flow (nextStepIncrement t) s = some msg := by
      rw [stepMessage_nextStepIncrement]
      exact hmsg
    by_cases hd : s.delay > 0
    · have h2 : ∀ x ∈ rest,
          stepMessage engine flow (setTimer (nextStepIncrement t) s.delay) x ≠ none := by
        intro x hx
        rw [stepMessage_setTimer, stepMessage_nextStepIncrement]
        exact h x (List.mem_cons_of_mem s hx)
      obtain ⟨evs1, tm, heq, hsends⟩ := ih (setTimer (nextStepIncrement t) s.delay) h2
      refine ⟨Event.sent t.roomID msg :: Event.waited s.delay :: evs1, tm, ?_, ?_⟩
      · simp only [nextStepFrom, hmsg1, if_pos hd]
        rw [heq]
        simp [setTimer, nextStepIncrement, Tutorial.mk.injEq]
        omega
      · simp only [sends, hsends, List.filterMap_cons, hmsg, List.cons.injEq, true_and]
        exact List.filterMap_congr
          (fun x _ => by rw [stepMessage_setTimer, stepMessage_nextStepIncrement])
    · have h2 : ∀ x ∈ rest, stepMessage engine flow (nextStepIncrement t) x ≠ none := by
        intro x hx
        rw [stepMessage_nextStepIncrement]
        exact h x (List.mem_cons_of_mem s hx)
      obtain ⟨evs1, tm, heq, hsends⟩ := ih (nextStepIncrement t) h2
      refine ⟨Event.sent t.roomID msg :: evs1, tm, ?_, ?_⟩
      · simp only [nextStepFrom, hmsg1, if_neg hd]
        rw [heq]
        simp [nextStepIncrement, Tutorial.mk.injEq]
        omega
      · simp only [sends, hsends, List.filterMap_cons, hmsg, List.cons.injEq, true_and]
        exact List.filterMap_congr
          (fun x _ => by rw [stepMessage_nextStepIncrement])

/-- Claim C4: for every flow with N steps, a session that is created
and never restarted — its queueNextStep(initialDelay) chain, spawned
by the dispatch — performs exactly N message sends, one per step and
in step order, and then finishes as ChainEnd.done with currentStep =
N, the terminal Completed state, after which the chain queues no
further timer.  The hypothesis asks that every step body renders
without panicking: a step whose body the template parser rejects
aborts the chain instead (the code bug recorded at claim C3). -/
theorem new_session_performs_each_step_then_completes {Tmpl : Type}
    (engine : TemplateEngine Tmpl) (flow : TutorialFlow) (roomID userID : String)
    (hok : ∀ s ∈ flow.steps,
      stepMessage engine flow (NewTutorial roomID userID flow.templates) s ≠ none) :
    ∃ evs tm,
      queueNextStep engine flow flow.initialDelay (NewTutorial roomID userID flow.templates)
        = (evs, ChainEnd.done ⟨roomID, userID, (flow.steps.length : Int), tm, flow.templates⟩) ∧
      sends evs = flow.steps.filterMap
        (stepMessage engine flow (NewTutorial roomID userID flow.templates)) ∧
      (sends evs).length = flow.steps.length := by
  have hok1 : ∀ s ∈ flow.steps,
      stepMessage engine flow
        (setTimer (NewTutorial roomID userID flow.templates) flow.initialDelay) s ≠ none := by
    intro x hx
    rw [stepMessage_setTimer]
    exact hok x hx
  by_cases hd : flow.initialDelay > 0
  · obtain ⟨evs, tm, heq, hsends⟩ := nextStepFrom_ok engine flow flow.steps
      (setTimer (NewTutorial roomID userID flow.templates) flow.initialDelay) hok1
    refine ⟨Event.waited flow.initialDelay :: evs, tm, ?_, ?_, ?_⟩
    · simp only [queueNextStep, if_pos hd, nextStep]
      rw [show ((setTimer (NewTutorial roomID userID flow.templates)
            flow.initialDelay).currentStep + 1).toNat = 0 from rfl]
      rw [List.drop_zero, heq]
      simp [setTimer, NewTutorial, Tutorial.mk.injEq]
    · simp only [sends, hsends]
      exact List.filterMap_congr (fun x _ => by rw [stepMessage_setTimer])
    · simp only [sends, hsends]
      rw [List.filterMap_congr (fun x _ => by rw [stepMessage_setTimer])]
      exact length_filterMap_of_ne_none _ flow.steps hok
  · obtain ⟨evs, tm, heq, hsends⟩ := nextStepFrom_ok engine flow flow.steps
      (NewTutorial roomID userID flow.templates) hok
    refine ⟨evs, tm, ?_, ?_, ?_⟩
    · simp only [queueNextStep, if_neg hd, nextStep]
      rw [show ((NewTutorial roomID userID flow.templates).currentStep + 1).toNat = 0
            from rfl]
      rw [List.drop_zero, heq]
      simp [NewTutorial, Tutorial.mk.injEq]
    · exact hsends
    · rw [hsends]
      exact length_filterMap_of_ne_none _ flow.steps hok

/-- Claim C1, evidence of the code bug at the failing input: a second
start for the same user takes the restart path, yet the runner
spawned by the first start is still pending afterwards — restart
operated on a copy of the registry entry, whose timer field is nil —
and scheduling that stale runner still sends every step of the prior
run.  Steps of the run prior to the restart therefore fire after it,
contradicting the claim. -/
theorem restart_leaves_prior_run_pending :
    exStart2.response = "Restarting Riot tutorial" ∧
    exStart2.world.runners = exStart1.world.runners ∧
    exStart1.world.runners = [(5, NewTutorial ("!room") ("@user") [])] ∧
    (fireRunner exEngine exFlow exStart2.world 0).map (fun res => sends res.2.1) =
      some [Message.textMessage ("m.text") ("one"), Message.textMessage ("m.notice") ("two")] :=
  ⟨rfl, rfl, rfl, rfl⟩

/-- Claim C2, evidence of the code bug at the failing input: on the
new-session path the dispatch performs no event synchronously (the
chain is spawned with the go keyword), but on the restart path it
synchronously blocks on the 5 ms initial-delay timer and then runs
the entire flow — two timed waits and both sends — before returning,
so the entry point does block on timed delays. -/
theorem restart_path_blocks_before_return :
    exStart1.syncEvents = [] ∧
    exStart2.syncEvents =
      [Event.waited 5,
       Event.sent ("!room") (Message.textMessage ("m.text") ("one")),
       Event.waited 7,
       Event.sent ("!room") (Message.textMessage ("m.notice") ("two"))] :=
  ⟨rfl, rfl⟩

/-- Claim C3, evidence of the code bug at the failing input: on a
step whose body the template parser rejects, renderBody does not
return the empty string — the parse error is logged but control falls
through to Execute on the nil template, a run-time panic (none in
this model), which aborts the session instead of continuing it. -/
theorem renderBody_panics_on_malformed_template :
    renderBody failParse (NewTutorial ("!room") ("@user") []) malformedStep = none :=
  rfl

/-- Claim C6, counterexample: the confirmation strings the dispatch
actually returns are Starting Riot tutorial and Restarting Riot
tutorial, not the Starting tutorial and Restarting tutorial stated by
the claim. -/
theorem start_response_differs_from_claim :
    exStart1.response = "Starting Riot tutorial" ∧
    (exStart1.response == "Starting tutorial") = false ∧
    exStart2.response = "Restarting Riot tutorial" ∧
    (exStart2.response == "Restarting tutorial") = false :=
  ⟨rfl, rfl, rfl, rfl⟩

/-- Witness for claim C4 at the concrete two-step flow: every step
renders, and the spawned chain sends both messages and completes. -/
theorem new_session_performs_each_step_then_completes_witness :
    (∀ s ∈ exFlow.steps,
      stepMessage exEngine exFlow (NewTutorial ("!room") ("@user") exFlow.templates) s ≠ none) ∧
    (∃ evs tm,
      queueNextStep exEngine exFlow exFlow.initialDelay
          (NewTutorial ("!room") ("@user") exFlow.templates)
        = (evs, ChainEnd.done
            ⟨"!room", "@user", (exFlow.steps.length : Int), tm, exFlow.templates⟩) ∧
      sends evs = exFlow.steps.filterMap
        (stepMessage exEngine exFlow (NewTutorial ("!room") ("@user") exFlow.templates)) ∧
      (sends evs).length = exFlow.steps.length) :=
  ⟨by decide,
    new_session_performs_each_step_then_completes exEngine exFlow ("!room") ("@user")
      (by decide)⟩

/-- Iterating the nextStep increment adds one per application. -/
theorem nextStepIncrement_iterate (t : Tutorial) (n : Nat) :
    (nextStepIncrement^[n] t).currentStep = t.currentStep + n := by
  induction n with
  | zero => simp
  | succ n ih =>
    rw [Function.iterate_succ_apply']
    simp only [nextStepIncrement, ih]
    push_cast
    ring

/-- Claim C5: between two restarts the currentStep field of a session
is monotonically non-decreasing — the advance machinery only ever
runs nextStepIncrement on it — while restartState resets it to the
sentinel -1 exactly when restart is invoked: no sequence of one or
more advances from a reachable state (currentStep at least the
sentinel) can produce -1 again. -/
theorem currentStep_monotone_and_restart_resets (t : Tutorial) (n m : Nat)
    (h : -1 ≤ t.currentStep) :
    t.currentStep ≤ (nextStepIncrement^[n] t).currentStep ∧
    (restartState t).currentStep = -1 ∧
    ((nextStepIncrement^[m + 1] t).currentStep == -1) = false := by
  refine ⟨?_, rfl, ?_⟩
  · rw [nextStepIncrement_iterate]
    omega
  · rw [beq_eq_false_iff_ne, nextStepIncrement_iterate]
    push_cast
    omega

/-- Witness for claim C5 at a fresh session, three advances and one
advance respectively. -/
theorem currentStep_monotone_and_restart_resets_witness :
    (-1 ≤ (NewTutorial ("!room") ("@user") []).currentStep) ∧
    ((NewTutorial ("!room") ("@user") []).currentStep
        ≤ (nextStepIncrement^[3] (NewTutorial ("!room") ("@user") [])).currentStep ∧
      (restartState (NewTutorial ("!room") ("@user") [])).currentStep = -1 ∧
      ((nextStepIncrement^[0 + 1] (NewTutorial ("!room") ("@user") [])).currentStep == -1)
        = false) :=
  ⟨by decide,
    currentStep_monotone_and_restart_resets (NewTutorial ("!room") ("@user") []) 3 0
      (by decide)⟩

/-- Claim C6 as amended: the dispatch returns the confirmation string
Restarting Riot tutorial when the linear scan finds a session with
the user's id, and Starting Riot tutorial when none exists. -/
theorem start_response_strings {Tmpl : Type} (engine : TemplateEngine Tmpl)
    (flow : TutorialFlow) (w : World) (roomID userID : String) :
    (initTutorialFlow engine flow w roomID userID).response =
      if (w.tutorials.find? (fun tut => tut.userID == userID)).isSome
      then "Restarting Riot tutorial" else "Starting Riot tutorial" := by
  cases hfind : w.tutorials.find? (fun tut => tut.userID == userID) with
  | none => simp [initTutorialFlow, hfind]
  | some tut => simp [initTutorialFlow, hfind]

/-- Claim C7: session lookup in the dispatch is the linear scan of
the registry (find?, the first entry whose userID matches wins); a
duplicate start for a user with an existing session is not an error
but runs restart for that session's state, leaving the registry as it
was, and only when no entry matches is a new Session constructed and
appended, its initial chain handed to a spawned runner. -/
theorem start_is_find_or_create {Tmpl : Type} (engine : TemplateEngine Tmpl)
    (flow : TutorialFlow) (w : World) (roomID userID : String) :
    (∀ tut, w.tutorials.find? (fun x => x.userID == userID) = some tut →
      tut.userID = userID ∧
      (initTutorialFlow engine flow w roomID userID).world = w ∧
      (initTutorialFlow engine flow w roomID userID).syncEvents
        = (restart engine flow tut).1 ∧
      (initTutorialFlow engine flow w roomID userID).syncEnd
        = some (restart engine flow tut).2) ∧
    (w.tutorials.find? (fun x => x.userID == userID) = none →
      (initTutorialFlow engine flow w roomID userID).world.tutorials
        = w.tutorials ++ [NewTutorial roomID userID flow.templates] ∧
      (initTutorialFlow engine flow w roomID userID).world.runners
        = w.runners ++ [(flow.initialDelay, NewTutorial roomID userID flow.templates)] ∧
      (initTutorialFlow engine flow w roomID userID).syncEvents = []) := by
  constructor
  · intro tut hfind
    have huser := List.find?_some hfind
    refine ⟨by simpa using huser, ?_, ?_, ?_⟩ <;> simp [initTutorialFlow, hfind]
  · intro hfind
    refine ⟨?_, ?_, ?_⟩ <;> simp [initTutorialFlow, hfind]

/-- Witness for claim C7: the duplicate start for the registered user
leaves the registry unchanged, and the first start on the empty
registry appended the fresh session. -/
theorem start_is_find_or_create_witness :
    (exStart2.world = exStart1.world ∧
      exStart2.syncEvents = (restart exEngine exFlow (NewTutorial ("!room") ("@user") [])).1) ∧
    (initTutorialFlow exEngine exFlow ⟨[], []⟩ ("!room") ("@user")).world.tutorials
      = [NewTutorial ("!room") ("@user") exFlow.templates] := by
  constructor
  · have h := (start_is_find_or_create exEngine exFlow exStart1.world ("!room") ("@user")).1
      (NewTutorial ("!room") ("@user") []) (by decide)
    exact ⟨h.2.1, h.2.2.1⟩
  · have h := (start_is_find_or_create exEngine exFlow ⟨[], []⟩ ("!room") ("@user")).2 rfl
    simpa using h.1

/-- Claim C8: for an image step whose caption rendered, the message
nextStep sends is an ImageMessage whose URL is exactly the string
concatenation of the flow's resource base URL and the step's src —
no path normalisation. -/
theorem image_message_url_concat {Tmpl : Type} (engine : TemplateEngine Tmpl)
    (flow : TutorialFlow) (t : Tutorial) (step : TutorialStep) (body : String)
    (hty : step.type = "image") (hr : renderBody engine t step = some body) :
    stepMessage engine flow t step
      = some (Message.imageMessage ("m.image") body (flow.resourcesBaseURL ++ step.src)) := by
  unfold stepMessage
  rw [if_pos hty, hr]
  rfl

/-- Witness for claim C8 at the concrete scenario of the claim: base
URL http and slash x slash, src a.png, so the sent URL is exactly
their concatenation. -/
theorem image_message_url_concat_witness :
    exImageStep.type = "image" ∧
    renderBody exEngine (NewTutorial ("!room") ("@user") []) exImageStep = some ("cap") ∧
    stepMessage exEngine exFlow (NewTutorial ("!room") ("@user") []) exImageStep
      = some (Message.imageMessage ("m.image") ("cap") ("http://x/a.png")) := by
  refine ⟨rfl, rfl, ?_⟩
  rw [image_message_url_concat exEngine exFlow (NewTutorial ("!room") ("@user") [])
    exImageStep ("cap") rfl rfl]
  decide

/-- Claim C9: the kind dispatch of the send.  An image step sends an
m.image ImageMessage with rendered caption and concatenated URL, a
notice step an m.notice TextMessage with the rendered body, and any
other kind — text as well as every unrecognized string — an m.text
TextMessage with the rendered body. -/
theorem step_kind_dispatch {Tmpl : Type} (engine : TemplateEngine Tmpl)
    (flow : TutorialFlow) (t : Tutorial) (step : TutorialStep) :
    (step.type = "image" → stepMessage engine flow t step
      = (renderBody engine t step).map
          (fun body =>
            Message.imageMessage ("m.image") body (flow.resourcesBaseURL ++ step.src))) ∧
    (step.type = "notice" → stepMessage engine flow t step
      = (renderBody engine t step).map
          (fun body => Message.textMessage ("m.notice") body)) ∧
    (step.type ≠ "image" → step.type ≠ "notice" → stepMessage engine flow t step
      = (renderBody engine t step).map
          (fun body => Message.textMessage ("m.text") body)) := by
  refine ⟨fun h => ?_, fun h => ?_, fun h1 h2 => ?_⟩
  · unfold stepMessage
    rw [if_pos h]
  · unfold stepMessage
    rw [if_neg (by rw [h]; decide), if_pos h]
  · unfold stepMessage
    rw [if_neg h1, if_neg h2]

/-- Witness for claim C9 at an image step, a notice step and a step
of unrecognized kind. -/
theorem step_kind_dispatch_witness :
    stepMessage exEngine exFlow (NewTutorial ("!room") ("@user") []) exImageStep
      = some (Message.imageMessage ("m.image") ("cap") ("http://x/a.png")) ∧
    stepMessage exEngine exFlow (NewTutorial ("!room") ("@user") []) exStepTwo
      = some (Message.textMessage ("m.notice") ("two")) ∧
    stepMessage exEngine exFlow (NewTutorial ("!room") ("@user") []) exWeirdStep
      = some (Message.textMessage ("m.text") ("three")) := by
  refine ⟨?_, ?_, ?_⟩
  · rw [(step_kind_dispatch exEngine exFlow (NewTutorial ("!room") ("@user") [])
      exImageStep).1 rfl]
    decide
  · rw [(step_kind_dispatch exEngine exFlow (NewTutorial ("!room") ("@user") [])
      exStepTwo).2.1 rfl]
    decide
  · rw [(step_kind_dispatch exEngine exFlow (NewTutorial ("!room") ("@user") [])
      exWeirdStep).2.2 (by decide) (by decide)]
    decide

/-- Claim C10: the registry entry is never mutated by the advance
machinery.  The dispatch preserves the invariant that every registry
entry keeps currentStep = -1 and a nil timer (the restart path runs
on the loop's copy, the create path appends a fresh entry), and
scheduling any pending runner leaves the registry untouched — the
chain increments only its private copy of the struct — so the entry
stays at -1 however many steps have been sent. -/
theorem registry_entry_never_advanced {Tmpl : Type} (engine : TemplateEngine Tmpl)
    (flow : TutorialFlow) (w : World) (roomID userID : String)
    (hw : ∀ t ∈ w.tutorials, t.currentStep = -1 ∧ t.timer = none) :
    (∀ t ∈ (initTutorialFlow engine flow w roomID userID).world.tutorials,
      t.currentStep = -1 ∧ t.timer = none) ∧
    (∀ i res, fireRunner engine flow w i = some res →
      res.1.tutorials = w.tutorials) := by
  constructor
  · intro t ht
    rcases hfind : w.tutorials.find? (fun tut => tut.userID == userID) with _ | tut
    · simp only [initTutorialFlow, hfind] at ht
      rcases List.mem_append.mp ht with hmem | hmem
      · exact hw t hmem
      · have hnew : t = NewTutorial roomID userID flow.templates := by simpa using hmem
        rw [hnew]
        exact ⟨rfl, rfl⟩
    · simp only [initTutorialFlow, hfind] at ht
      exact hw t ht
  · intro i res hres
    simp only [fireRunner] at hres
    rcases hgi : w.runners[i]? with _ | r
    · rw [hgi] at hres
      cases hres
    · rw [hgi] at hres
      cases hres
      rfl

/-- Witness for claim C10 on the registry holding one fresh session:
a start for another user preserves the invariant and firing the
pending runner never touches the registry. -/
theorem registry_entry_never_advanced_witness :
    (∀ t ∈ exStart1.world.tutorials, t.currentStep = -1 ∧ t.timer = none) ∧
    ((∀ t ∈ (initTutorialFlow exEngine exFlow exStart1.world ("!other") ("@other")).world.tutorials,
        t.currentStep = -1 ∧ t.timer = none) ∧
      (∀ i res, fireRunner exEngine exFlow exStart1.world i = some res →
        res.1.tutorials = exStart1.world.tutorials)) :=
  ⟨by decide,
    registry_entry_never_advanced exEngine exFlow exStart1.world ("!other") ("@other")
      (by decide)⟩

end Riotbot
